import Mathlib

/-!
Verification of the Auto YouTube Video Generator backend
(src/main.py, src/schemas.py) against its specification.

The pipeline orchestrator, job API and action stubs are embedded here as
executable Lean functions, translated from `src/main.py`; the pydantic
`VideoJob` schema of `src/schemas.py` is embedded as a structure together
with a validated constructor `mkVideoJob` mirroring pydantic field
validation.  The document-store helpers `create_document` / `get_documents`
live in `database.py`, which is not part of the provided sources; they are
modelled from the specification (section 4.1, Record Store Adapter).
-/

/-- The set of `format` literals admitted by the pydantic `Literal` type in
`schemas.py` line 52: `Literal["1080p", "9:16", "16:9", "square"]`. -/
def validFormat (f : String) : Bool :=
  f == "1080p" || f == "9:16" || f == "16:9" || f == "square"

/-- The set of `status` literals admitted by pydantic in `schemas.py`
line 55: `Literal["queued", "running", "completed", "failed"]`. -/
def validStatus (st : String) : Bool :=
  st == "queued" || st == "running" || st == "completed" || st == "failed"

/-- The `VideoJob` model of `schemas.py` (lines 43-67).  Field order and
optionality follow the source.  `meta: Optional[Dict[str, Any]]` is embedded
as an optional association list; its payload type plays no role in any
property proved here. -/
structure VideoJob where
  topic : String
  trigger_phrase : String
  voice : String
  style : String
  format : String
  status : String
  step : Option String
  progress : Int
  script : Option String
  voiceover_url : Option String
  broll_urls : Option (List String)
  final_url : Option String
  logs : Option (List String)
  meta : Option (List (String × String))
deriving Repr, DecidableEq

/-- Validated construction of a `VideoJob`, mirroring pydantic validation of
`schemas.py`: `format` must be one of the four literals, `status` one of the
four lifecycle literals, and `progress` must satisfy `ge=0, le=100`.
Any violation raises a `ValidationError` in Python; here it returns
`.error`. -/
def mkVideoJob (topic trigger_phrase voice style format status : String)
    (step : Option String) (progress : Int)
    (script voiceover_url : Option String)
    (broll_urls : Option (List String)) (final_url : Option String)
    (logs : Option (List String)) (meta : Option (List (String × String))) :
    Except String VideoJob :=
  if !(validFormat format) then .error "validation error: format"
  else if !(validStatus status) then .error "validation error: status"
  else if progress < 0 || progress > 100 then .error "validation error: progress"
  else .ok
    { topic := topic, trigger_phrase := trigger_phrase, voice := voice,
      style := style, format := format, status := status, step := step,
      progress := progress, script := script, voiceover_url := voiceover_url,
      broll_urls := broll_urls, final_url := final_url, logs := logs,
      meta := meta }

/-- Modelled from the spec: the state of the Record Store Adapter
(`database.py` is absent from src/).  `connected` is whether a store
connection exists (StoreUnavailable otherwise), `failWrites` / `failReads`
model underlying write/read failures (StoreWriteError / StoreReadError).
Stored records live in `docs` tagged with their collection kind and the
store-assigned identifier; `nextId` is the next fresh identifier. -/
structure Store where
  connected : Bool
  failWrites : Bool
  failReads : Bool
  docs : List (String × Nat × VideoJob)
  nextId : Nat
deriving Repr, DecidableEq

/-- Modelled from the spec: `create_document(kind, record) -> id`
(`database.py`, absent from src/; spec section 4.1): serializes the record
under the collection keyed by `kind` and returns the newly assigned
identifier; fails with StoreUnavailable if no store connection exists, or
StoreWriteError on underlying write failure, in which case nothing is
written (no partial-state persistence, spec section 7). -/
def create_document (kind : String) (record : VideoJob) (s : Store) :
    Except String (Nat × Store) :=
  if !s.connected then .error "StoreUnavailable"
  else if s.failWrites then .error "StoreWriteError"
  else .ok (s.nextId,
    { s with docs := s.docs ++ [(kind, s.nextId, record)],
             nextId := s.nextId + 1 })

/-- A document as returned by the store: the record plus the store-assigned
`_id` key (present whenever the store assigned one on insert). -/
structure StoredDoc where
  mongoId : Option Nat
  job : VideoJob
deriving Repr, DecidableEq

/-- Modelled from the spec: `get_documents(kind, limit) -> records`
(`database.py`, absent from src/; spec section 4.1): returns up to `limit`
records of the collection keyed by `kind`, each carrying its store-assigned
`_id`; fails with StoreUnavailable / StoreReadError analogously to
`create_document`. -/
def get_documents (kind : String) (limit : Nat) (s : Store) :
    Except String (List StoredDoc) :=
  if !s.connected then .error "StoreUnavailable"
  else if s.failReads then .error "StoreReadError"
  else .ok (((s.docs.filter (fun d => d.1 == kind)).take limit).map
    (fun d => { mongoId := some d.2.1, job := d.2.2 }))

/-- A job record as returned to the caller of `GET /api/jobs`: the stored
`_id` is remapped (stringified) into a caller-visible `id` field
(`main.py` lines 92-94). -/
structure JobOut where
  id : Option String
  job : VideoJob
deriving Repr, DecidableEq

/-- The per-document remapping loop body of `list_jobs` (`main.py` lines
92-94): if an `_id` key is present it is popped and `str()`-ed into `id`. -/
def remap_id (d : StoredDoc) : JobOut :=
  match d.mongoId with
  | some i => { id := some (toString i), job := d.job }
  | none => { id := none, job := d.job }

/-- `GET /api/jobs` (`main.py` lines 88-97): reads up to `limit` documents
from the "videojob" collection, remaps `_id` into `id`; any store exception
becomes an HTTP 500 with the exception text as detail. -/
def list_jobs (limit : Nat) (s : Store) :
    Except (Nat × String) (List JobOut) :=
  match get_documents "videojob" limit s with
  | .ok docs => .ok (docs.map remap_id)
  | .error e => .error (500, e)

/-- Response body of `POST /api/jobs` (`main.py` line 84). -/
structure CreateJobOut where
  id : Nat
  status : String
deriving Repr, DecidableEq

/-- `POST /api/jobs` (`main.py` lines 80-86): persists the caller-supplied
job; on success returns the new id and the job's status, on a store
exception raises HTTP 500 (the store failure is NOT suppressed).  The
second component is the resulting store state. -/
def create_job (job : VideoJob) (s : Store) :
    (Except (Nat × String) CreateJobOut) × Store :=
  match create_document "videojob" job s with
  | .ok (jid, s2) => (.ok { id := jid, status := job.status }, s2)
  | .error e => (.error (500, e), s)

/-- The action stub `POST /api/actions/generate_voice` (`main.py` lines
102-104): ignores its payload and returns a fixed audio URL. -/
def action_generate_voice (script voice : String) : String :=
  "https://example.com/voiceover.mp3"

/-- The action stub `POST /api/actions/generate_broll` (`main.py` lines
106-109): one synthetic URL per scene prompt, 1-indexed
(`enumerate(payload.scene_prompts, start=1)`). -/
def action_generate_broll (scene_prompts : List String) : List String :=
  scene_prompts.enum.map
    (fun p => "https://example.com/broll_" ++ toString (p.1 + 1) ++ ".mp4")

/-- The action stub `POST /api/actions/auto_edit_video` (`main.py` lines
111-113): ignores its payload and returns a fixed final video URL. -/
def action_auto_edit (voiceover_url : String) (broll_urls : List String)
    (style format : String) : String :=
  "https://example.com/final_video.mp4"

/-- `RunRequest` of `main.py` lines 117-122.  Note `format` is a plain
string here (no `Literal` restriction on the run request). -/
structure RunRequest where
  trigger_phrase : String
  topic : Option String
  voice : String
  style : String
  format : String
deriving Repr, DecidableEq

/-- Python's `str.strip()` with no argument: removes whitespace from both
ends of the string.  (`main.py` line 126 trims the trigger phrase with it
before comparing.) -/
def pyStrip (s : String) : String :=
  ⟨((s.data.dropWhile Char.isWhitespace).reverse.dropWhile
      Char.isWhitespace).reverse⟩

/-- The canonical trigger phrase (`main.py` line 126). -/
def canonicalTrigger : String := "Create a full video automatically."

/-- The default topic used when none is supplied (`main.py` line 130). -/
def defaultTopic : String := "Why AI copilots are changing software in 2025"

/-- Topic resolution, `main.py` line 130: `topic = req.topic or <default>`.
Python `or` falls through to the default exactly when `req.topic` is `None`
or the empty string (the only falsy strings). -/
def resolveTopic (t : Option String) : String :=
  match t with
  | none => defaultTopic
  | some x => if x == "" then defaultTopic else x

/-- The mock trend object (`main.py` lines 131-136). -/
structure Trend where
  topic : String
  why : String
  viral_score : Nat
  angle : String
deriving Repr, DecidableEq

/-- Trend detection mock (`main.py` lines 131-136): constants except for the
resolved topic. -/
def mkTrend (topic : String) : Trend :=
  { topic := topic, why := "Mass adoption in IDEs and office suites",
    viral_score := 87, angle := "Pros & cons with real examples" }

/-- Script generation mock (`main.py` lines 139-143): a fixed template
interpolating the topic. -/
def mkScript (topic : String) : String :=
  "Title: " ++ topic ++ "\n\n" ++
    "Intro: In this video, we explore how AI copilots...\n" ++
    "...\nConclusion: Subscribe for more!"

/-- The fixed scene list (`main.py` lines 144-148), independent of topic. -/
def pipelineScenes : List String :=
  ["Developer coding with AI suggestions on screen",
   "Graph showing productivity improvements",
   "Security team reviewing AI-generated code"]

/-- Job assembly in `run_pipeline` (`main.py` lines 167-180): the `VideoJob`
constructor call with `status="completed"`, `step="Final MP4 Output"`,
`progress=100`; `trigger_phrase` and `meta` keep their schema defaults.
Pydantic validation may reject it (only via `format`, since every other
supplied value is within its constraint). -/
def assembleJob (req : RunRequest) (topic script voiceover_url : String)
    (broll_urls : List String) (final_url : String) : Except String VideoJob :=
  mkVideoJob topic canonicalTrigger req.voice req.style req.format
    "completed" (some "Final MP4 Output") 100 (some script)
    (some voiceover_url) (some broll_urls) (some final_url)
    (some ["Pipeline executed (mock)"]) none

/-- Outcomes with which `run_pipeline` can fail: the explicit HTTP 400 on a
trigger mismatch (`main.py` line 127), or an unhandled pydantic
`ValidationError` escaping the `VideoJob(...)` call (`main.py` line 167). -/
inductive RunError where
  | httpError (status : Nat) (detail : String)
  | validationError (msg : String)
deriving Repr, DecidableEq

/-- Response body of a successful `POST /api/run` (`main.py` lines
186-193).  `job_id` is `none` exactly when the final store insert failed. -/
structure RunResult where
  job_id : Option Nat
  trend : Trend
  script : String
  voiceover_url : String
  broll_urls : List String
  final_url : String
deriving Repr, DecidableEq

/-- Observable side-effect events of one `run_pipeline` call, in order:
which action stubs were invoked and whether the final store insert was
attempted. -/
inductive Event where
  | voiceStub
  | brollStub
  | editStub
  | storeInsertAttempt
deriving Repr, DecidableEq

/-- `POST /api/run` (`main.py` lines 124-193).  Returns the response (or
error), the resulting store state, and the trace of stub invocations and
insert attempts.  The final `create_document` call sits in a
`try/except` that maps any store failure to `job_id = None`
(lines 181-184). -/
def run_pipeline (req : RunRequest) (s : Store) :
    (Except RunError RunResult) × Store × List Event :=
  if pyStrip req.trigger_phrase != canonicalTrigger then
    (.error (.httpError 400 "Invalid trigger phrase"), s, [])
  else
    let topic := resolveTopic req.topic
    let trend := mkTrend topic
    let script := mkScript topic
    let voiceover_url := action_generate_voice script req.voice
    let broll_urls := action_generate_broll pipelineScenes
    let final_url := action_auto_edit voiceover_url broll_urls req.style req.format
    let events := [Event.voiceStub, Event.brollStub, Event.editStub]
    match assembleJob req topic script voiceover_url broll_urls final_url with
    | .error msg => (.error (.validationError msg), s, events)
    | .ok job =>
      match create_document "videojob" job s with
      | .ok (jid, s2) =>
          (.ok { job_id := some jid, trend := trend, script := script,
                 voiceover_url := voiceover_url, broll_urls := broll_urls,
                 final_url := final_url },
           s2, events ++ [Event.storeInsertAttempt])
      | .error _ =>
          (.ok { job_id := none, trend := trend, script := script,
                 voiceover_url := voiceover_url, broll_urls := broll_urls,
                 final_url := final_url },
           s, events ++ [Event.storeInsertAttempt])

/-! ### Concrete example inputs used by witnesses -/

/-- A run request with a valid (padded) trigger phrase and topic "X". -/
def reqA : RunRequest :=
  { trigger_phrase := " Create a full video automatically. ",
    topic := some "X", voice := "male_tech_voice",
    style := "tech_fastpaced", format := "1080p" }

/-- A connected, healthy, empty store. -/
def storeUp : Store :=
  { connected := true, failWrites := false, failReads := false,
    docs := [], nextId := 0 }

/-- A store with no connection (StoreUnavailable on any access). -/
def storeDown : Store :=
  { connected := false, failWrites := false, failReads := false,
    docs := [], nextId := 0 }

/-! ### Claim theorems -/

/-- C2: `run_pipeline` fails with the HTTP 400 "Invalid trigger phrase"
error if and only if the stripped trigger phrase differs from the canonical
phrase; and on such a mismatch the whole call returns immediately with the
store unchanged and an empty event trace (no action stub invoked, no store
insert attempted). -/
theorem run_invalid_trigger_iff (req : RunRequest) (s : Store) :
    ((run_pipeline req s).1 =
        .error (.httpError 400 "Invalid trigger phrase")
      ↔ pyStrip req.trigger_phrase ≠ canonicalTrigger)
    ∧ (pyStrip req.trigger_phrase ≠ canonicalTrigger →
        run_pipeline req s =
          (.error (.httpError 400 "Invalid trigger phrase"), s, [])) := by
  unfold run_pipeline
  by_cases h : pyStrip req.trigger_phrase = canonicalTrigger
  · rw [h]
    simp only [bne_self_eq_false, Bool.false_eq_true, if_false, ne_eq, h,
      not_true_eq_false, imp_false, iff_false]
    constructor
    · split
      · simp
      · split <;> simp
    · simp
  · have hb : (pyStrip req.trigger_phrase != canonicalTrigger) = true := by
      simpa [bne] using h
    rw [hb]
    simp [h]

/-- Witness for C2 at the concrete request "wrong": the pipeline returns
the 400 error, leaves the store untouched and performs no events. -/
theorem run_invalid_trigger_iff_witness :
    run_pipeline { reqA with trigger_phrase := "wrong" } storeUp =
      (.error (.httpError 400 "Invalid trigger phrase"), storeUp, []) :=
  (run_invalid_trigger_iff { reqA with trigger_phrase := "wrong" }
    storeUp).2 (by decide)

/-- C3: `action_generate_broll` returns exactly one URL per input scene
prompt, in order, and the i-th output URL (0-based position i) carries the
1-based index i+1 in its synthetic name. -/
theorem generate_broll_length_index (ps : List String) :
    (action_generate_broll ps).length = ps.length
    ∧ ∀ i (h : i < (action_generate_broll ps).length),
        (action_generate_broll ps).get ⟨i, h⟩ =
          "https://example.com/broll_" ++ toString (i + 1) ++ ".mp4" := by
  unfold action_generate_broll
  refine ⟨by simp, ?_⟩
  intro i h
  simp only [List.get_eq_getElem, List.getElem_map, List.getElem_enum]

/-- Witness for C3 on a two-element prompt list: two URLs, and position 1
holds the name indexed 2. -/
theorem generate_broll_length_index_witness :
    (action_generate_broll ["a", "b"]).length = 2
    ∧ (action_generate_broll ["a", "b"]).get ⟨1, by decide⟩ =
        "https://example.com/broll_" ++ toString (1 + 1) ++ ".mp4" :=
  ⟨(generate_broll_length_index ["a", "b"]).1,
   (generate_broll_length_index ["a", "b"]).2 1 (by decide)⟩

/-- C1: with a valid (stripped) trigger phrase, whenever the final store
insert raises (no connection, or a write failure) — which requires the job
assembly itself to have succeeded, i.e. a valid `format` — the exception is
suppressed: `run_pipeline` still returns a successful result carrying the
script, voiceover URL, b-roll URLs and final URL, with `job_id = none`,
leaving the store unchanged.  The trace records that the insert was
attempted after the three stubs. -/
theorem run_suppresses_store_failure (req : RunRequest) (s : Store)
    (htrig : pyStrip req.trigger_phrase = canonicalTrigger)
    (hfmt : validFormat req.format = true)
    (hfail : s.connected = false ∨ s.failWrites = true) :
    run_pipeline req s =
      (.ok { job_id := none, trend := mkTrend (resolveTopic req.topic),
             script := mkScript (resolveTopic req.topic),
             voiceover_url := "https://example.com/voiceover.mp3",
             broll_urls := action_generate_broll pipelineScenes,
             final_url := "https://example.com/final_video.mp4" },
       s,
       [Event.voiceStub, Event.brollStub, Event.editStub,
        Event.storeInsertAttempt]) := by
  rcases hfail with h | h
  · simp [run_pipeline, htrig, assembleJob, mkVideoJob, hfmt, validStatus,
      h, create_document, action_generate_voice, action_auto_edit]
  · cases hc : s.connected
    · simp [run_pipeline, htrig, assembleJob, mkVideoJob, hfmt, validStatus,
        h, hc, create_document, action_generate_voice, action_auto_edit]
    · simp [run_pipeline, htrig, assembleJob, mkVideoJob, hfmt, validStatus,
        h, hc, create_document, action_generate_voice, action_auto_edit]

/-- Witness for C1: a concrete valid request against a disconnected store
returns all artifacts with `job_id = none`. -/
theorem run_suppresses_store_failure_witness :
    run_pipeline reqA storeDown =
      (.ok { job_id := none, trend := mkTrend (resolveTopic reqA.topic),
             script := mkScript (resolveTopic reqA.topic),
             voiceover_url := "https://example.com/voiceover.mp3",
             broll_urls := action_generate_broll pipelineScenes,
             final_url := "https://example.com/final_video.mp4" },
       storeDown,
       [Event.voiceStub, Event.brollStub, Event.editStub,
        Event.storeInsertAttempt]) :=
  run_suppresses_store_failure reqA storeDown (by decide) rfl (Or.inl rfl)

/-- C4: topic resolution uses the supplied topic when present and
non-empty, and the fixed default otherwise (Python `or`: both `None` and
the empty string fall through); and for a valid trigger with supplied
non-empty topic `X`, every successful pipeline result has
`trend.topic = X` and a script containing `X` as a substring. -/
theorem run_topic_resolution (req : RunRequest) (s : Store) (X : String)
    (htrig : pyStrip req.trigger_phrase = canonicalTrigger)
    (htopic : req.topic = some X) (hne : X ≠ "") :
    resolveTopic (some X) = X
    ∧ resolveTopic none = defaultTopic
    ∧ resolveTopic (some "") = defaultTopic
    ∧ ∀ r s2 tr, run_pipeline req s = (.ok r, s2, tr) →
        r.trend.topic = X ∧ ∃ pre post, r.script = pre ++ X ++ post := by
  have h1 : resolveTopic (some X) = X := by
    simp [resolveTopic, hne]
  refine ⟨h1, rfl, rfl, ?_⟩
  intro r s2 tr hrun
  unfold run_pipeline at hrun
  rw [htrig] at hrun
  simp only [bne_self_eq_false, Bool.false_eq_true, if_false] at hrun
  rw [htopic, h1] at hrun
  have hgoal : r.trend = mkTrend X ∧ r.script = mkScript X := by
    split at hrun
    · simp at hrun
    · split at hrun <;>
        · rw [Prod.mk.injEq, Prod.mk.injEq] at hrun
          obtain ⟨hr, -, -⟩ := hrun
          injection hr with hr
          subst hr
          exact ⟨rfl, rfl⟩
  refine ⟨by rw [hgoal.1]; rfl, "Title: ",
    "\n\n" ++ "Intro: In this video, we explore how AI copilots...\n" ++
      "...\nConclusion: Subscribe for more!", ?_⟩
  rw [hgoal.2]
  unfold mkScript
  simp only [String.append_assoc]

/-- Witness for C4 at the concrete request `reqA` (topic "X"): the
hypotheses hold and the supplied topic is the resolved one. -/
theorem run_topic_resolution_witness :
    resolveTopic (some "X") = "X" ∧ resolveTopic none = defaultTopic :=
  ⟨(run_topic_resolution reqA storeUp "X" (by decide) rfl (by decide)).1,
   (run_topic_resolution reqA storeUp "X" (by decide) rfl (by decide)).2.1⟩

/-- C5: `create_job` does not suppress store failures: if the store is
unavailable or the write fails, it returns HTTP 500 and the store is
unchanged (no partial write); if the write succeeds it returns the newly
assigned id together with the job's status, and exactly the one record is
appended. -/
theorem create_job_store_contract (job : VideoJob) (s : Store) :
    (s.connected = false →
      create_job job s = (.error (500, "StoreUnavailable"), s))
    ∧ (s.connected = true → s.failWrites = true →
      create_job job s = (.error (500, "StoreWriteError"), s))
    ∧ (s.connected = true → s.failWrites = false →
      create_job job s =
        (.ok { id := s.nextId, status := job.status },
         { s with docs := s.docs ++ [("videojob", s.nextId, job)],
                  nextId := s.nextId + 1 })) := by
  refine ⟨fun h => ?_, fun hc hw => ?_, fun hc hw => ?_⟩ <;>
    simp_all [create_job, create_document]

/-- Witness for C5: concrete store failure (disconnected) gives the 500
error with an unchanged store. -/
theorem create_job_store_contract_witness :
    create_job
      { topic := "t", trigger_phrase := canonicalTrigger, voice := "alloy",
        style := "engaging", format := "16:9", status := "queued",
        step := none, progress := 0, script := none, voiceover_url := none,
        broll_urls := none, final_url := none, logs := none, meta := none }
      storeDown =
      (.error (500, "StoreUnavailable"), storeDown) :=
  (create_job_store_contract _ storeDown).1 rfl

/-- C6: every successful `list_jobs limit` response holds at most `limit`
records, and every returned record carries a non-null `id` (the
store-assigned identifier remapped from the store's `_id`). -/
theorem list_jobs_limit_and_ids (limit : Nat) (s : Store)
    (docs : List JobOut) (h : list_jobs limit s = .ok docs) :
    docs.length ≤ limit ∧ ∀ d ∈ docs, d.id.isSome = true := by
  unfold list_jobs get_documents at h
  cases hc : s.connected <;> rw [hc] at h
  · simp at h
  · cases hr : s.failReads <;> rw [hr] at h
    · simp only [Bool.not_true, Bool.false_eq_true, if_false,
        Except.ok.injEq] at h
      subst h
      constructor
      · calc ((((s.docs.filter (fun d => d.1 == "videojob")).take
                limit).map _).map remap_id).length
            = ((s.docs.filter (fun d => d.1 == "videojob")).take
                limit).length := by simp
          _ ≤ limit := List.length_take_le _ _
      · intro d hd
        rw [List.map_map] at hd
        simp only [List.mem_map] at hd
        obtain ⟨x, -, hx⟩ := hd
        subst hx
        rfl
    · simp at h

/-- Witness for C6: a store holding one job, queried with limit 3, returns
one record with a non-null id. -/
theorem list_jobs_limit_and_ids_witness :
    ([({ id := some "0",
         job := { topic := "t", trigger_phrase := canonicalTrigger,
                  voice := "alloy", style := "engaging", format := "16:9",
                  status := "queued", step := none, progress := 0,
                  script := none, voiceover_url := none, broll_urls := none,
                  final_url := none, logs := none, meta := none } } :
        JobOut)].length ≤ 3) :=
  (list_jobs_limit_and_ids 3
    { connected := true, failWrites := false, failReads := false,
      docs := [("videojob", 0,
        { topic := "t", trigger_phrase := canonicalTrigger, voice := "alloy",
          style := "engaging", format := "16:9", status := "queued",
          step := none, progress := 0, script := none, voiceover_url := none,
          broll_urls := none, final_url := none, logs := none,
          meta := none })],
      nextId := 1 } _ rfl).1

/-- C7: every `VideoJob` that passes validated construction has `progress`
in [0,100] and `format` among the four enumerated literals; conversely a
construction with an out-of-range `progress` or an unrecognized `format`
is rejected. -/
theorem videoJob_validation (topic trig voice style fmt status : String)
    (step : Option String) (progress : Int) (script vurl : Option String)
    (burls : Option (List String)) (furl : Option String)
    (logs : Option (List String)) (meta : Option (List (String × String))) :
    (∀ j, mkVideoJob topic trig voice style fmt status step progress script
        vurl burls furl logs meta = .ok j →
      0 ≤ j.progress ∧ j.progress ≤ 100 ∧
        (j.format = "1080p" ∨ j.format = "9:16" ∨ j.format = "16:9" ∨
          j.format = "square"))
    ∧ ((validFormat fmt = false ∨ progress < 0 ∨ 100 < progress) →
        (mkVideoJob topic trig voice style fmt status step progress script
          vurl burls furl logs meta).toOption = none) := by
  constructor
  · intro j hj
    unfold mkVideoJob at hj
    by_cases hf : validFormat fmt = true
    · rw [hf] at hj
      simp only [Bool.not_true, Bool.false_eq_true, if_false] at hj
      by_cases hs : validStatus status = true
      · rw [hs] at hj
        simp only [Bool.not_true, Bool.false_eq_true, if_false] at hj
        by_cases hp : progress < 0 ∨ 100 < progress
        · have : (decide (progress < 0) || decide (progress > 100)) = true := by
            rcases hp with hp | hp <;> simp [hp]
          rw [this] at hj
          simp at hj
        · push_neg at hp
          have : (decide (progress < 0) || decide (progress > 100)) = false := by
            rw [decide_eq_false (not_lt.mpr hp.1),
              decide_eq_false (not_lt.mpr hp.2)]
            rfl
          rw [this] at hj
          simp only [Bool.false_eq_true, if_false, Except.ok.injEq] at hj
          subst hj
          refine ⟨hp.1, hp.2, ?_⟩
          unfold validFormat at hf
          simp only [Bool.or_eq_true, beq_iff_eq] at hf
          tauto
      · rw [eq_false_of_ne_true hs] at hj
        simp at hj
    · rw [eq_false_of_ne_true hf] at hj
      simp at hj
  · intro hbad
    unfold mkVideoJob
    rcases hf : validFormat fmt with _ | _
    · rfl
    · rcases hs : validStatus status with _ | _
      · rfl
      · have hb : progress < 0 ∨ 100 < progress := by
          rcases hbad with h | h | h
          · simp [hf] at h
          · exact Or.inl h
          · exact Or.inr h
        have h1 : (decide (progress < 0) || decide (progress > 100)) = true := by
          rcases hb with h | h <;> simp [h]
        rw [h1]
        rfl

/-- Witness for C7: the rejection branch at a concrete unrecognized format
"720p". -/
theorem videoJob_validation_witness :
    (mkVideoJob "t" canonicalTrigger "alloy" "engaging" "720p" "queued"
      none 0 none none none none none none).toOption = none :=
  (videoJob_validation "t" canonicalTrigger "alloy" "engaging" "720p"
    "queued" none 0 none none none none none none).2 (Or.inl rfl)

/-- C8: every `VideoJob` successfully assembled by `run_pipeline`'s job
construction has `status = "completed"`, `step = "Final MP4 Output"` and
`progress = 100`; in particular it is never `queued`, `running` or
`failed`. -/
theorem run_assembled_job_completed (req : RunRequest)
    (topic script vurl : String) (burls : List String) (furl : String)
    (j : VideoJob)
    (h : assembleJob req topic script vurl burls furl = .ok j) :
    j.status = "completed" ∧ j.step = some "Final MP4 Output" ∧
    j.progress = 100 ∧ j.status ≠ "queued" ∧ j.status ≠ "running" ∧
    j.status ≠ "failed" := by
  unfold assembleJob mkVideoJob at h
  by_cases hf : validFormat req.format = true
  · rw [hf] at h
    simp only [Bool.not_true, Bool.false_eq_true, if_false,
      Except.ok.injEq] at h
    rw [if_neg (by decide), if_neg (by decide)] at h
    simp only [Except.ok.injEq] at h
    subst h
    refine ⟨rfl, rfl, rfl, by simp, by simp, by simp⟩
  · rw [eq_false_of_ne_true hf] at h
    simp at h

/-- Witness for C8 at a concrete assembled job. -/
theorem run_assembled_job_completed_witness :
    ({ topic := "X", trigger_phrase := canonicalTrigger,
       voice := "male_tech_voice", style := "tech_fastpaced",
       format := "1080p", status := "completed",
       step := some "Final MP4 Output", progress := 100,
       script := some (mkScript "X"),
       voiceover_url := some "https://example.com/voiceover.mp3",
       broll_urls := some (action_generate_broll pipelineScenes),
       final_url := some "https://example.com/final_video.mp4",
       logs := some ["Pipeline executed (mock)"], meta := none } :
      VideoJob).status = "completed" :=
  (run_assembled_job_completed reqA "X" (mkScript "X")
    "https://example.com/voiceover.mp3"
    (action_generate_broll pipelineScenes)
    "https://example.com/final_video.mp4" _ rfl).1

/-- Success case of `run_pipeline` (valid trigger, valid format, healthy
store): the response carries the freshly assigned id, and the store keeps
its connection flags, gains exactly one record and increments `nextId`.
Shared helper for the two-run property. -/
theorem run_pipeline_ok (req : RunRequest) (s : Store)
    (htrig : pyStrip req.trigger_phrase = canonicalTrigger)
    (hfmt : validFormat req.format = true)
    (hconn : s.connected = true) (hw : s.failWrites = false) :
    (run_pipeline req s).1 = .ok
      { job_id := some s.nextId, trend := mkTrend (resolveTopic req.topic),
        script := mkScript (resolveTopic req.topic),
        voiceover_url := "https://example.com/voiceover.mp3",
        broll_urls := action_generate_broll pipelineScenes,
        final_url := "https://example.com/final_video.mp4" }
    ∧ ((run_pipeline req s).2.1).connected = true
    ∧ ((run_pipeline req s).2.1).failWrites = false
    ∧ ((run_pipeline req s).2.1).nextId = s.nextId + 1
    ∧ ((run_pipeline req s).2.1).docs.length = s.docs.length + 1 := by
  refine ⟨?_, ?_, ?_, ?_, ?_⟩ <;>
    simp [run_pipeline, htrig, assembleJob, mkVideoJob, hfmt, validStatus,
      create_document, hconn, hw, action_generate_voice, action_auto_edit]

/-- C9: two consecutive runs with identical arguments against an available
store both succeed, persist two records (the store grows by two), return
identical `script` and `final_url` contents, and carry distinct `job_id`s
(the two freshly assigned identifiers). -/
theorem run_twice_distinct_ids (req : RunRequest) (s : Store)
    (htrig : pyStrip req.trigger_phrase = canonicalTrigger)
    (hfmt : validFormat req.format = true)
    (hconn : s.connected = true) (hw : s.failWrites = false) :
    ((run_pipeline req s).1.toOption.map RunResult.job_id
        = some (some s.nextId))
    ∧ ((run_pipeline req ((run_pipeline req s).2.1)).1.toOption.map
          RunResult.job_id = some (some (s.nextId + 1)))
    ∧ ((run_pipeline req s).1.toOption.map RunResult.job_id
        ≠ (run_pipeline req ((run_pipeline req s).2.1)).1.toOption.map
            RunResult.job_id)
    ∧ ((run_pipeline req s).1.toOption.map RunResult.script
        = (run_pipeline req ((run_pipeline req s).2.1)).1.toOption.map
            RunResult.script)
    ∧ ((run_pipeline req s).1.toOption.map RunResult.final_url
        = (run_pipeline req ((run_pipeline req s).2.1)).1.toOption.map
            RunResult.final_url)
    ∧ ((run_pipeline req ((run_pipeline req s).2.1)).2.1).docs.length
        = s.docs.length + 2 := by
  obtain ⟨h1, hc1, hw1, hn1, hd1⟩ := run_pipeline_ok req s htrig hfmt hconn hw
  obtain ⟨h2, -, -, -, hd2⟩ :=
    run_pipeline_ok req ((run_pipeline req s).2.1) htrig hfmt hc1 hw1
  refine ⟨?_, ?_, ?_, ?_, ?_, ?_⟩
  · rw [h1]
    rfl
  · rw [h2, hn1]
    rfl
  · rw [h1, h2, hn1]
    simp [Except.toOption]
  · rw [h1, h2]
    rfl
  · rw [h1, h2]
    rfl
  · rw [hd2, hd1]

/-- Witness for C9 on the concrete request `reqA` and the healthy empty
store. -/
theorem run_twice_distinct_ids_witness :
    ((run_pipeline reqA storeUp).1.toOption.map RunResult.job_id
        = some (some storeUp.nextId))
    ∧ ((run_pipeline reqA ((run_pipeline reqA storeUp).2.1)).1.toOption.map
          RunResult.job_id = some (some (storeUp.nextId + 1)))
    ∧ ((run_pipeline reqA storeUp).1.toOption.map RunResult.job_id
        ≠ (run_pipeline reqA ((run_pipeline reqA storeUp).2.1)).1.toOption.map
            RunResult.job_id)
    ∧ ((run_pipeline reqA storeUp).1.toOption.map RunResult.script
        = (run_pipeline reqA ((run_pipeline reqA storeUp).2.1)).1.toOption.map
            RunResult.script)
    ∧ ((run_pipeline reqA storeUp).1.toOption.map RunResult.final_url
        = (run_pipeline reqA ((run_pipeline reqA storeUp).2.1)).1.toOption.map
            RunResult.final_url)
    ∧ ((run_pipeline reqA ((run_pipeline reqA storeUp).2.1)).2.1).docs.length
        = storeUp.docs.length + 2 :=
  run_twice_distinct_ids reqA storeUp (by decide) rfl rfl rfl

/-- C10: with a valid trigger but a `format` outside the four literals, the
pipeline runs all three action stubs and then fails with an unhandled
validation error during job assembly, before any store insert is attempted:
the store is unchanged, the trace holds exactly the three stub events, and
no artifacts are returned.  (The run request itself accepts `format` as an
arbitrary string: `RunRequest.format : String`.) -/
theorem run_invalid_format (req : RunRequest) (s : Store)
    (htrig : pyStrip req.trigger_phrase = canonicalTrigger)
    (hfmt : validFormat req.format = false) :
    run_pipeline req s =
      (.error (.validationError "validation error: format"), s,
       [Event.voiceStub, Event.brollStub, Event.editStub]) := by
  simp [run_pipeline, htrig, assembleJob, mkVideoJob, hfmt,
    action_generate_voice, action_auto_edit]

/-- Witness for C10: a concrete run with format "720p" fails with the
validation error after the three stubs. -/
theorem run_invalid_format_witness :
    run_pipeline { reqA with format := "720p" } storeUp =
      (.error (.validationError "validation error: format"), storeUp,
       [Event.voiceStub, Event.brollStub, Event.editStub]) :=
  run_invalid_format { reqA with format := "720p" } storeUp (by decide) rfl
